import Mathlib

/-!
Verification development for the password-manager client's core algorithms:
password generation (`src/utils/passwordGenerator.ts`), the two strength
scorers, the vault health analyzer (`components/health/PasswordHealth.tsx`)
and the import normalizer (`components/import/ImportPasswords.tsx`).

Each definition is a shallow embedding of the corresponding TypeScript
function.  JavaScript randomness (`Math.random()`) is modelled by an injected
entropy source `rand : Nat → Nat`: the i-th call to
`Math.floor(Math.random() * n)` is modelled as `rand i % n`, which ranges over
exactly the values the source can produce.  The array shuffle
`sort(() => Math.random() - 0.5)` is modelled by an injected function
`shuffle` about which theorems assume only that it permutes its input — the
one guarantee a JavaScript sort with an inconsistent comparator provides.
-/

/-! ## Character pools (`PasswordGenerator` static constants) -/

def UPPERCASE : List Char := "ABCDEFGHIJKLMNOPQRSTUVWXYZ".toList

def LOWERCASE : List Char := "abcdefghijklmnopqrstuvwxyz".toList

def NUMBERS : List Char := "0123456789".toList

def SYMBOLS : List Char := "!@#$%^&*()_+-=[]{}|;:,.<>?".toList

def SIMILAR : List Char := "il1Lo0O".toList

/-- Structure `GeneratorOptions` from `src/types/password.ts`. -/
structure GeneratorOptions where
  length : Nat
  includeUppercase : Bool
  includeLowercase : Bool
  includeNumbers : Bool
  includeSymbols : Bool
  excludeSimilar : Bool
deriving DecidableEq

def notSimilar (c : Char) : Bool := !(SIMILAR.contains c)

/-- The working alphabet before the lookalike filter: concatenation of the
enabled class pools, in source order. -/
def rawCharset (o : GeneratorOptions) : List Char :=
  (if o.includeUppercase then UPPERCASE else [])
    ++ (if o.includeLowercase then LOWERCASE else [])
    ++ (if o.includeNumbers then NUMBERS else [])
    ++ (if o.includeSymbols then SYMBOLS else [])

/-- The working alphabet after the optional lookalike filter
(`charset.split('').filter(c => !SIMILAR.includes(c))`). -/
def charset (o : GeneratorOptions) : List Char :=
  if o.excludeSimilar then (rawCharset o).filter notSimilar else rawCharset o

/-- Function `PasswordGenerator.getRandomChar`: draw one character from a class pool,
filtered of lookalikes when requested.  `charAt` on an empty string yields the
empty string, modelled by `none`. -/
def getRandomChar (pool : List Char) (excludeSimilar : Bool) (r : Nat) :
    Option Char :=
  let chars := if excludeSimilar then pool.filter notSimilar else pool
  chars[r % chars.length]?

/-- The guarantee-representation step: one character per enabled class, drawn
with entropy indices 0..3 in source order (upper, lower, digit, symbol). -/
def guaranteedChars (o : GeneratorOptions) (rand : Nat → Nat) : List Char :=
  (if o.includeUppercase then
      (getRandomChar UPPERCASE o.excludeSimilar (rand 0)).toList else [])
    ++ (if o.includeLowercase then
      (getRandomChar LOWERCASE o.excludeSimilar (rand 1)).toList else [])
    ++ (if o.includeNumbers then
      (getRandomChar NUMBERS o.excludeSimilar (rand 2)).toList else [])
    ++ (if o.includeSymbols then
      (getRandomChar SYMBOLS o.excludeSimilar (rand 3)).toList else [])

/-- The fill loop: `n` further draws from the working alphabet, using entropy
indices `start, start+1, …`.  Each iteration appends `charset.charAt(k)`,
which is one character when the alphabet is nonempty and nothing otherwise. -/
def fillChars (cs : List Char) (rand : Nat → Nat) : Nat → Nat → List Char
  | _, 0 => []
  | start, n + 1 =>
      (cs[(rand start) % cs.length]?).toList ++ fillChars cs rand (start + 1) n

/-- Function `PasswordGenerator.generate`.  Throws (models `throw new Error`) when the
working alphabet is empty; otherwise emits the guaranteed characters, fills up
to `options.length`, and shuffles. -/
def generate (o : GeneratorOptions) (rand : Nat → Nat)
    (shuffle : List Char → List Char) : Except String (List Char) :=
  if (charset o).length = 0 then
    Except.error "At least one character type must be selected"
  else
    let guaranteed := guaranteedChars o rand
    Except.ok
      (shuffle (guaranteed ++ fillChars (charset o) rand 4 (o.length - guaranteed.length)))

/-- Number of enabled character classes (= length of the guaranteed part). -/
def enabledCount (o : GeneratorOptions) : Nat :=
  (if o.includeUppercase then 1 else 0) + (if o.includeLowercase then 1 else 0)
    + (if o.includeNumbers then 1 else 0) + (if o.includeSymbols then 1 else 0)

/-! ## Strength scorers

Shared feature tests.  The source regex `/(.)\\1{2,}/` (written with a
doubled backslash inside a regex literal) matches a non-newline character
followed by a literal backslash followed by at least two `'1'` characters —
it does not detect consecutive repeats. -/

def hasUpperFlag (s : List Char) : Bool :=
  s.any (fun c => decide ('A' ≤ c ∧ c ≤ 'Z'))

def hasLowerFlag (s : List Char) : Bool :=
  s.any (fun c => decide ('a' ≤ c ∧ c ≤ 'z'))

def hasDigitFlag (s : List Char) : Bool :=
  s.any (fun c => decide ('0' ≤ c ∧ c ≤ '9'))

/-- Test `/[^a-zA-Z0-9]/`. -/
def hasSymbolFlag (s : List Char) : Bool :=
  s.any (fun c =>
    !(decide ('A' ≤ c ∧ c ≤ 'Z') || decide ('a' ≤ c ∧ c ≤ 'z')
      || decide ('0' ≤ c ∧ c ≤ '9')))

/-- Test `/(.)\\1{2,}/.test(password)`: true iff some non-newline character is
followed by the three characters `'\'`, `'1'`, `'1'`. -/
def hasRepeatedPattern : List Char → Bool
  | c :: rest =>
      (match rest with
       | '\\' :: '1' :: '1' :: _ => c != '\n'
       | _ => false)
        || hasRepeatedPattern rest
  | [] => false

def COMMON_PATTERNS : List (List Char) :=
  ["123".toList, "abc".toList, "qwe".toList, "password".toList, "admin".toList]

/-- True iff `pat` occurs at the start of `s`. -/
def isPrefixList : List Char → List Char → Bool
  | [], _ => true
  | _ :: _, [] => false
  | a :: pat, b :: s => a == b && isPrefixList pat s

/-- True iff `pat` occurs somewhere inside `s` (substring test). -/
def containsSub (pat : List Char) : List Char → Bool
  | [] => isPrefixList pat []
  | b :: s => isPrefixList pat (b :: s) || containsSub pat s

/-- Test `/123|abc|qwe|password|admin/i.test(password)`: case-insensitive
substring test (ASCII case folding). -/
def hasCommonPattern (s : List Char) : Bool :=
  COMMON_PATTERNS.any (fun p => containsSub p (s.map Char.toLower))

/-- Structure `PasswordStrength` from `src/types/password.ts`. -/
structure PasswordStrength where
  score : Int
  label : String
  color : String
  suggestions : List String
deriving DecidableEq

/-- The qualitative score of `PasswordGenerator.analyzeStrength`, before the
label lookup: sum of the length points, class points, bonuses and penalties,
clamped to `[0, 5]`. -/
def qualScore (password : List Char) : Int :=
  max 0 (min 5
    ((if password.length ≥ 12 then 2 else if password.length ≥ 8 then 1 else 0)
      + (if hasLowerFlag password then 1 else 0)
      + (if hasUpperFlag password then 1 else 0)
      + (if hasDigitFlag password then 1 else 0)
      + (if hasSymbolFlag password then 1 else 0)
      + (if password.length ≥ 16 then 1 else 0)
      + (if password.any (fun c => SYMBOLS.contains c) then 1 else 0)
      - (if hasRepeatedPattern password then 1 else 0)
      - (if hasCommonPattern password then 2 else 0)))

/-- The suggestion list of `analyzeStrength`, in push order. -/
def qualSuggestions (password : List Char) : List String :=
  (if password.length ≥ 8 then [] else ["Use at least 8 characters"])
    ++ (if hasLowerFlag password then [] else ["Include lowercase letters"])
    ++ (if hasUpperFlag password then [] else ["Include uppercase letters"])
    ++ (if hasDigitFlag password then [] else ["Include numbers"])
    ++ (if hasSymbolFlag password then [] else ["Include special characters"])

/-- Function `PasswordGenerator.analyzeStrength`.  `strengthLevels[score]?.label ||
'Very Weak'` is a lookup in a five-entry table with a fallback default, hence
`List.getD`. -/
def analyzeStrength (password : List Char) : PasswordStrength :=
  { score := qualScore password
    label := ["Very Weak", "Weak", "Fair", "Good", "Strong"].getD
      (qualScore password).toNat "Very Weak"
    color := ["strength-very-weak", "strength-weak", "strength-fair",
      "strength-good", "strength-strong"].getD
      (qualScore password).toNat "strength-very-weak"
    suggestions := qualSuggestions password }

/-- Structure `StrengthBreakdown`: the return shape of `calculatePasswordStrength`. -/
structure StrengthBreakdown where
  score : Int
  hasUppercase : Bool
  hasLowercase : Bool
  hasNumbers : Bool
  hasSymbols : Bool
deriving DecidableEq

/-- The length staircase of `calculatePasswordStrength`. -/
def lengthScore (n : Nat) : Int :=
  if n ≥ 16 then 30 else if n ≥ 12 then 25 else if n ≥ 8 then 15
    else if n ≥ 6 then 10 else 5

/-- Count `varietyCount`: how many of the four class flags are set. -/
def quantVariety (hu hl hd hy : Bool) : Nat :=
  (if hu then 1 else 0) + (if hl then 1 else 0)
    + (if hd then 1 else 0) + (if hy then 1 else 0)

/-- The unclamped quantitative score as a function of the extracted features
(length, the four class flags, the two penalty tests): length staircase plus
class weights plus variety bonuses minus penalties. -/
def quantRawScore (len : Nat) (hu hl hd hy rep com : Bool) : Int :=
  lengthScore len
    + (if hu then 15 else 0) + (if hl then 15 else 0)
    + (if hd then 15 else 0) + (if hy then 25 else 0)
    + (if quantVariety hu hl hd hy ≥ 3 then 10 else 0)
    + (if quantVariety hu hl hd hy = 4 then 10 else 0)
    - (if rep then 10 else 0)
    - (if com then 20 else 0)

/-- Function `calculatePasswordStrength`: the quantitative 0–100 scorer. -/
def calculatePasswordStrength (password : List Char) : StrengthBreakdown :=
  { score := max 0 (min 100
      (quantRawScore password.length (hasUpperFlag password)
        (hasLowerFlag password) (hasDigitFlag password)
        (hasSymbolFlag password) (hasRepeatedPattern password)
        (hasCommonPattern password)))
    hasUppercase := hasUpperFlag password
    hasLowercase := hasLowerFlag password
    hasNumbers := hasDigitFlag password
    hasSymbols := hasSymbolFlag password }

example : (calculatePasswordStrength "aaaaaa".toList).score = 25 := by decide

example : (calculatePasswordStrength "Tr0ub4dor&9!".toList).score ≥ 80 := by
  decide

example : (analyzeStrength "password".toList).score = 0 := by decide

/-! ## Vault health analyzer (`components/health/PasswordHealth.tsx`)

`Password` keeps the fields the analyzer reads.  JavaScript's
`password.password || password.encryptedPassword` treats the empty string
(and a missing field, modelled the same way) as falsy.  `updatedAt` is a
timestamp; the six-months-ago reference date computed from `new Date()` is
an injected `cutoff`, and `new Date(p.updatedAt) < sixMonthsAgo` is
`p.updatedAt < cutoff`. -/

structure Password where
  id : String
  title : String
  password : String
  encryptedPassword : String
  category : String
  updatedAt : Int
deriving DecidableEq

def resolvedSecret (p : Password) : String :=
  if p.password = "" then p.encryptedPassword else p.password

structure HealthStats where
  total : Nat
  weak : Nat
  duplicate : Nat
  old : Nat
  strong : Nat
  score : ℚ

/-- Accumulator of the `passwordList.forEach` loop: the four counters plus
the first-seen list of raw secret values (`passwordValues`). -/
structure HealthAcc where
  weak : Nat
  duplicate : Nat
  old : Nat
  strong : Nat
  seen : List String

/-- One iteration of the `forEach` loop in `analyzePasswordHealth`. -/
def healthStep (cutoff : Int) (acc : HealthAcc) (p : Password) : HealthAcc :=
  let sc := (calculatePasswordStrength (resolvedSecret p).toList).score
  let acc1 :=
    if sc < 60 then { acc with weak := acc.weak + 1 }
    else if sc ≥ 80 then { acc with strong := acc.strong + 1 }
    else acc
  let v := resolvedSecret p
  let acc2 :=
    if acc1.seen.contains v then { acc1 with duplicate := acc1.duplicate + 1 }
    else { acc1 with seen := acc1.seen ++ [v] }
  if p.updatedAt < cutoff then { acc2 with old := acc2.old + 1 } else acc2

/-- The overall security score block of `analyzePasswordHealth`: stays at its
initial 0 when `total = 0`; otherwise the clamped weighted penalties/bonus
formula, over exact rationals (JavaScript computes it in floating point). -/
def healthScore (total weak dup old strong : Nat) : ℚ :=
  if total > 0 then
    max 0 (min 100
      (100 - ((weak : ℚ) / total) * 40 - ((dup : ℚ) / total) * 30
        - ((old : ℚ) / total) * 20 + ((strong : ℚ) / total) * 10))
  else 0

/-- Function `analyzePasswordHealth`: run the counting loop, then attach the score. -/
def analyzePasswordHealth (ps : List Password) (cutoff : Int) : HealthStats :=
  let acc := ps.foldl (healthStep cutoff) ⟨0, 0, 0, 0, []⟩
  ⟨ps.length, acc.weak, acc.duplicate, acc.old, acc.strong,
    healthScore ps.length acc.weak acc.duplicate acc.old acc.strong⟩

/-- Insertion into `passwordGroups`: JavaScript object keys that are not array
indices keep insertion order, so the group map is an association list; a new
key goes to the back, an existing key appends to its group. -/
def addToGroups (groups : List (String × List Password)) (v : String)
    (p : Password) : List (String × List Password) :=
  match groups with
  | [] => [(v, [p])]
  | (k, g) :: rest =>
      if k = v then (k, g ++ [p]) :: rest else (k, g) :: addToGroups rest v p

/-- Function `getDuplicatePasswords`: group records by resolved secret, keep groups of
size at least 2, and flatten in group order. -/
def getDuplicatePasswords (ps : List Password) : List Password :=
  let groups := ps.foldl (fun gs p => addToGroups gs (resolvedSecret p) p) []
  ((groups.filter (fun g => g.2.length > 1)).map (fun g => g.2)).flatten

/-! ## Import normalizer (`components/import/ImportPasswords.tsx`) -/

/-- Structure `ImportedPassword`: the canonical candidate record.  Optional fields that
JavaScript leaves `undefined` are modelled as the empty string, which the
source treats identically (both are falsy and render as `''`). -/
structure ImportedPassword where
  title : String
  username : String
  email : String
  password : String
  websiteUrl : String
  category : String
  notes : String
deriving DecidableEq

/-- JavaScript `text.split(sep)` on character lists (structural, unlike `String.splitOn`,
so concrete inputs evaluate by kernel reduction).  The empty text splits to
one empty piece, as in JavaScript. -/
def splitOnChar (sep : Char) : List Char → List (List Char)
  | [] => [[]]
  | c :: rest =>
      match splitOnChar sep rest with
      | [] => [[]]
      | h :: t => if c = sep then [] :: h :: t else (c :: h) :: t

/-- JavaScript `String.prototype.trim` (ASCII whitespace; the claims' inputs contain no
exotic Unicode whitespace). -/
def trimList (l : List Char) : List Char :=
  (((l.dropWhile Char.isWhitespace).reverse).dropWhile Char.isWhitespace).reverse

/-- JavaScript `v.replace(/^"(.*)"$/, '$1')`: strip one pair of surrounding double
quotes; the pattern needs both an opening and a closing quote, so it requires
length at least 2. -/
def unquoteList (v : List Char) : List Char :=
  if v.length ≥ 2 ∧ v.headD ' ' = '"' ∧ v.getLastD ' ' = '"' then
    (v.drop 1).dropLast
  else v

def csvHeaders (line : List Char) : List (List Char) :=
  (splitOnChar ',' line).map (fun h => (trimList h).map Char.toLower)

def csvValues (line : List Char) : List (List Char) :=
  (splitOnChar ',' line).map (fun v => unquoteList (trimList v))

def emptyCandidate : ImportedPassword :=
  { title := "", username := "", email := "", password := "", websiteUrl := ""
    category := "Personal", notes := "" }

/-- The `switch (header)` of `parseCSV`: one header/value assignment. -/
def applyHeader (r : ImportedPassword) (header : List Char) (value : List Char) :
    ImportedPassword :=
  if header = "title".toList ∨ header = "name".toList ∨ header = "site".toList
  then { r with title := value.asString }
  else if header = "username".toList ∨ header = "user".toList then
    { r with username := value.asString }
  else if header = "email".toList then { r with email := value.asString }
  else if header = "password".toList then { r with password := value.asString }
  else if header = "url".toList ∨ header = "website".toList
      ∨ header = "websiteurl".toList then
    { r with websiteUrl := value.asString }
  else if header = "category".toList ∨ header = "folder".toList then
    { r with category := if value = [] then "Personal" else value.asString }
  else if header = "notes".toList ∨ header = "note".toList then
    { r with notes := value.asString }
  else r

/-- One data row of `parseCSV`: run every header over the row's values
(`values[index] || ''` for missing cells), then apply the title fallback.
`i` is the 1-based row index used in the fallback name. -/
def parseRow (headers : List (List Char)) (values : List (List Char)) (i : Nat) :
    ImportedPassword :=
  let r := headers.enum.foldl
    (fun r hi => applyHeader r hi.2 (values.getD hi.1 [])) emptyCandidate
  if r.title = "" then
    { r with title :=
        if r.websiteUrl = "" then "Imported Password " ++ toString i
        else r.websiteUrl }
  else r

/-- The nonblank lines of the file (`text.split('\n').filter(l => l.trim())`). -/
def csvLines (text : String) : List (List Char) :=
  (splitOnChar '\n' text.toList).filter (fun l => trimList l != [])

/-- The data rows with their 1-based loop indices. -/
def csvRows (text : String) : List (Nat × List Char) :=
  (csvLines text).enum.drop 1

/-- The candidate a given data row parses to. -/
def csvRecord (text : String) (il : Nat × List Char) : ImportedPassword :=
  parseRow (csvHeaders ((csvLines text).headD [])) (csvValues il.2) il.1

/-- Function `parseCSV`: header-driven CSV parsing; rows whose resolved password is
empty are skipped (`if (password.password) passwords.push(...)`). -/
def parseCSV (text : String) : Except String (List ImportedPassword) :=
  if (csvLines text).length < 2 then
    Except.error "CSV must have at least a header row and one data row"
  else
    Except.ok ((csvRows text).foldl
      (fun acc il =>
        let r := csvRecord text il
        if r.password != "" then acc ++ [r] else acc) [])

/-- Structure `ImportResult` from `ImportPasswords.tsx`. -/
structure ImportResult where
  total : Nat
  successful : Nat
  failed : Nat
  errors : List String
deriving DecidableEq

def importError (title : String) (e : String) : String :=
  "Failed to import \"" ++ title ++ "\": " ++ e

/-- The commit loop of `handleImport`: the external store's per-record
outcome is injected as `store : Nat → Option String` (`none` = the create
succeeded, `some e` = it threw `e`).  A failure increments `failed`, appends
one error message, and the loop continues with the next candidate. -/
def importLoop (store : Nat → Option String) :
    List ImportedPassword → Nat → ImportResult → ImportResult
  | [], _, r => r
  | p :: rest, i, r =>
      match store i with
      | none =>
          importLoop store rest (i + 1)
            { r with successful := r.successful + 1 }
      | some e =>
          importLoop store rest (i + 1)
            { r with failed := r.failed + 1
                     errors := r.errors ++ [importError p.title e] }

/-- Function `handleImport`: returns early (no outcome) on an empty candidate list;
otherwise runs the commit loop from a zeroed result with
`total = previewData.length`. -/
def handleImport (previewData : List ImportedPassword)
    (store : Nat → Option String) : Option ImportResult :=
  if previewData.length = 0 then none
  else
    some (importLoop store previewData 0
      { total := previewData.length, successful := 0, failed := 0, errors := [] })

/-- Number of failing store calls among indices `start, …, start+n-1`. -/
def countFail (store : Nat → Option String) : Nat → Nat → Nat
  | _, 0 => 0
  | start, n + 1 =>
      (if (store start).isSome then 1 else 0) + countFail store (start + 1) n

/-! ## Generator lemmas -/

theorem upper_pool_pos :
    0 < UPPERCASE.length ∧ 0 < (UPPERCASE.filter notSimilar).length := by decide

theorem lower_pool_pos :
    0 < LOWERCASE.length ∧ 0 < (LOWERCASE.filter notSimilar).length := by decide

theorem numbers_pool_pos :
    0 < NUMBERS.length ∧ 0 < (NUMBERS.filter notSimilar).length := by decide

theorem symbols_pool_pos :
    0 < SYMBOLS.length ∧ 0 < (SYMBOLS.filter notSimilar).length := by decide

/-- A draw from a nonempty (possibly filtered) pool yields a member of the
pool, lookalike-free when the filter is on. -/
theorem getRandomChar_spec (pool : List Char) (es : Bool) (r : Nat)
    (h1 : 0 < pool.length) (h2 : 0 < (pool.filter notSimilar).length) :
    ∃ c, getRandomChar pool es r = some c ∧ c ∈ pool
      ∧ (es = true → notSimilar c = true) := by
  cases es with
  | false =>
      have hlt : r % pool.length < pool.length := Nat.mod_lt _ h1
      exact ⟨pool[r % pool.length],
        by simp [getRandomChar, List.getElem?_eq_getElem hlt],
        List.getElem_mem hlt, fun h => Bool.noConfusion h⟩
  | true =>
      set chars := pool.filter notSimilar with hchars
      have hlt : r % chars.length < chars.length := Nat.mod_lt _ h2
      refine ⟨chars[r % chars.length],
        by simp [getRandomChar, ← hchars, List.getElem?_eq_getElem hlt], ?_, ?_⟩
      · exact List.mem_of_mem_filter (List.getElem_mem hlt)
      · exact fun _ => List.of_mem_filter (List.getElem_mem hlt)

/-- Any successful draw is a member of the (filtered) pool it drew from. -/
theorem getRandomChar_mem_of_some {pool : List Char} {es : Bool} {r : Nat}
    {c : Char} (h : getRandomChar pool es r = some c) :
    c ∈ (if es then pool.filter notSimilar else pool) := by
  unfold getRandomChar at h
  exact List.getElem?_mem h

/-- The guaranteed part has exactly one character per enabled class. -/
theorem guaranteedChars_length (o : GeneratorOptions) (rand : Nat → Nat) :
    (guaranteedChars o rand).length = enabledCount o := by
  obtain ⟨cu, hcu, -, -⟩ :=
    getRandomChar_spec UPPERCASE o.excludeSimilar (rand 0)
      upper_pool_pos.1 upper_pool_pos.2
  obtain ⟨cl, hcl, -, -⟩ :=
    getRandomChar_spec LOWERCASE o.excludeSimilar (rand 1)
      lower_pool_pos.1 lower_pool_pos.2
  obtain ⟨cn, hcn, -, -⟩ :=
    getRandomChar_spec NUMBERS o.excludeSimilar (rand 2)
      numbers_pool_pos.1 numbers_pool_pos.2
  obtain ⟨cs, hcs, -, -⟩ :=
    getRandomChar_spec SYMBOLS o.excludeSimilar (rand 3)
      symbols_pool_pos.1 symbols_pool_pos.2
  simp only [guaranteedChars, enabledCount, hcu, hcl, hcn, hcs,
    List.length_append]
  cases o.includeUppercase <;> cases o.includeLowercase <;>
    cases o.includeNumbers <;> cases o.includeSymbols <;> simp

/-- The fill loop emits exactly `n` characters over a nonempty alphabet. -/
theorem fillChars_length (cs : List Char) (rand : Nat → Nat)
    (h : 0 < cs.length) :
    ∀ start n, (fillChars cs rand start n).length = n := by
  intro start n
  induction n generalizing start with
  | zero => rfl
  | succ n ih =>
      have hlt : (rand start) % cs.length < cs.length := Nat.mod_lt _ h
      simp [fillChars, List.getElem?_eq_getElem hlt, ih]

/-- Every fill character comes from the working alphabet. -/
theorem fillChars_mem (cs : List Char) (rand : Nat → Nat) :
    ∀ start n c, c ∈ fillChars cs rand start n → c ∈ cs := by
  intro start n
  induction n generalizing start with
  | zero => intro c hc; cases hc
  | succ n ih =>
      intro c hc
      rcases List.mem_append.mp hc with hc | hc
      · rcases Option.mem_toList.mp hc with h
        exact List.getElem?_mem h
      · exact ih (start + 1) c hc

/-- With at least one class enabled, the working alphabet is nonempty (even
after the lookalike filter). -/
theorem charset_pos (o : GeneratorOptions)
    (hcls : o.includeUppercase = true ∨ o.includeLowercase = true ∨
      o.includeNumbers = true ∨ o.includeSymbols = true) :
    0 < (charset o).length := by
  have key : ∃ c, c ∈ rawCharset o ∧ notSimilar c = true := by
    rcases hcls with h | h | h | h
    · refine ⟨'A', ?_, by decide⟩
      unfold rawCharset
      rw [show (if o.includeUppercase = true then UPPERCASE else [])
          = UPPERCASE from if_pos h]
      exact List.mem_append_left _
        (List.mem_append_left _ (List.mem_append_left _ (by decide)))
    · refine ⟨'a', ?_, by decide⟩
      unfold rawCharset
      rw [show (if o.includeLowercase = true then LOWERCASE else [])
          = LOWERCASE from if_pos h]
      exact List.mem_append_left _
        (List.mem_append_left _ (List.mem_append_right _ (by decide)))
    · refine ⟨'2', ?_, by decide⟩
      unfold rawCharset
      rw [show (if o.includeNumbers = true then NUMBERS else [])
          = NUMBERS from if_pos h]
      exact List.mem_append_left _ (List.mem_append_right _ (by decide))
    · refine ⟨'!', ?_, by decide⟩
      unfold rawCharset
      rw [show (if o.includeSymbols = true then SYMBOLS else [])
          = SYMBOLS from if_pos h]
      exact List.mem_append_right _ (by decide)
  obtain ⟨c, hmem, hns⟩ := key
  unfold charset
  cases o.excludeSimilar with
  | false => exact List.length_pos.mpr (List.ne_nil_of_mem hmem)
  | true =>
      exact List.length_pos.mpr
        (List.ne_nil_of_mem (List.mem_filter.mpr ⟨hmem, hns⟩))

/-- With the class enabled, the guaranteed part holds a character of that
class.  Stated for the uppercase slot; the other three are analogous. -/
theorem guaranteed_has_upper (o : GeneratorOptions) (rand : Nat → Nat)
    (ho : o.includeUppercase = true) :
    ∃ c, c ∈ guaranteedChars o rand ∧ c ∈ UPPERCASE := by
  obtain ⟨c, hc, hmem, -⟩ :=
    getRandomChar_spec UPPERCASE o.excludeSimilar (rand 0)
      upper_pool_pos.1 upper_pool_pos.2
  exact ⟨c, by simp [guaranteedChars, ho, hc], hmem⟩

theorem guaranteed_has_lower (o : GeneratorOptions) (rand : Nat → Nat)
    (ho : o.includeLowercase = true) :
    ∃ c, c ∈ guaranteedChars o rand ∧ c ∈ LOWERCASE := by
  obtain ⟨c, hc, hmem, -⟩ :=
    getRandomChar_spec LOWERCASE o.excludeSimilar (rand 1)
      lower_pool_pos.1 lower_pool_pos.2
  exact ⟨c, by simp [guaranteedChars, ho, hc], hmem⟩

theorem guaranteed_has_digit (o : GeneratorOptions) (rand : Nat → Nat)
    (ho : o.includeNumbers = true) :
    ∃ c, c ∈ guaranteedChars o rand ∧ c ∈ NUMBERS := by
  obtain ⟨c, hc, hmem, -⟩ :=
    getRandomChar_spec NUMBERS o.excludeSimilar (rand 2)
      numbers_pool_pos.1 numbers_pool_pos.2
  exact ⟨c, by simp [guaranteedChars, ho, hc], hmem⟩

theorem guaranteed_has_symbol (o : GeneratorOptions) (rand : Nat → Nat)
    (ho : o.includeSymbols = true) :
    ∃ c, c ∈ guaranteedChars o rand ∧ c ∈ SYMBOLS := by
  obtain ⟨c, hc, hmem, -⟩ :=
    getRandomChar_spec SYMBOLS o.excludeSimilar (rand 3)
      symbols_pool_pos.1 symbols_pool_pos.2
  exact ⟨c, by simp [guaranteedChars, ho, hc], hmem⟩

/-! ## Claim C1 -/

/-- A valid request per the claim (length 1 ≥ 1, two classes enabled). -/
def c1badOpts : GeneratorOptions :=
  { length := 1, includeUppercase := true, includeLowercase := true
    includeNumbers := false, includeSymbols := false, excludeSimilar := false }

/-- Claim C1, counterexample: the request with `length = 1` and classes
`{upper, lower}` is valid in the claim's sense (length ≥ 1, a class enabled),
yet `generate` returns the two guaranteed characters and never truncates, so
the output length is 2, not the requested 1. -/
theorem C1_counterexample :
    generate c1badOpts (fun _ => 0) id = Except.ok ['A', 'a']
      ∧ ¬ ((['A', 'a'] : List Char).length = c1badOpts.length) :=
  ⟨rfl, by decide⟩

/-- Claim C1 (amended): for every `GenerationRequest` with at least one class
enabled and `length ≥ number of enabled classes`, and for every entropy
source and permutation-shuffle, `generate` succeeds with a password of
exactly the requested length containing at least one character from every
enabled class. -/
theorem C1_generate_length_and_classes (o : GeneratorOptions)
    (rand : Nat → Nat) (shuffle : List Char → List Char)
    (hsh : ∀ l : List Char, (shuffle l).Perm l)
    (hcls : o.includeUppercase = true ∨ o.includeLowercase = true ∨
      o.includeNumbers = true ∨ o.includeSymbols = true)
    (hlen : enabledCount o ≤ o.length) :
    ∃ out, generate o rand shuffle = Except.ok out
      ∧ out.length = o.length
      ∧ (o.includeUppercase = true → out.any (fun c => UPPERCASE.contains c) = true)
      ∧ (o.includeLowercase = true → out.any (fun c => LOWERCASE.contains c) = true)
      ∧ (o.includeNumbers = true → out.any (fun c => NUMBERS.contains c) = true)
      ∧ (o.includeSymbols = true → out.any (fun c => SYMBOLS.contains c) = true) := by
  have hpos := charset_pos o hcls
  have hne : ¬ ((charset o).length = 0) := by omega
  refine ⟨shuffle (guaranteedChars o rand
      ++ fillChars (charset o) rand 4 (o.length - (guaranteedChars o rand).length)),
    by rw [generate, if_neg hne], ?_, ?_, ?_, ?_, ?_⟩
  · rw [(hsh _).length_eq, List.length_append, guaranteedChars_length,
      fillChars_length _ _ hpos]
    omega
  · intro hu
    obtain ⟨c, hcg, hcU⟩ := guaranteed_has_upper o rand hu
    exact List.any_eq_true.mpr
      ⟨c, (hsh _).mem_iff.mpr (List.mem_append_left _ hcg),
        List.elem_eq_true_of_mem hcU⟩
  · intro hl
    obtain ⟨c, hcg, hcL⟩ := guaranteed_has_lower o rand hl
    exact List.any_eq_true.mpr
      ⟨c, (hsh _).mem_iff.mpr (List.mem_append_left _ hcg),
        List.elem_eq_true_of_mem hcL⟩
  · intro hn
    obtain ⟨c, hcg, hcN⟩ := guaranteed_has_digit o rand hn
    exact List.any_eq_true.mpr
      ⟨c, (hsh _).mem_iff.mpr (List.mem_append_left _ hcg),
        List.elem_eq_true_of_mem hcN⟩
  · intro hs
    obtain ⟨c, hcg, hcS⟩ := guaranteed_has_symbol o rand hs
    exact List.any_eq_true.mpr
      ⟨c, (hsh _).mem_iff.mpr (List.mem_append_left _ hcg),
        List.elem_eq_true_of_mem hcS⟩

/-- The spec's own example request: classes `{upper, digit}`, length 10. -/
def c1goodOpts : GeneratorOptions :=
  { length := 10, includeUppercase := true, includeLowercase := false
    includeNumbers := true, includeSymbols := false, excludeSimilar := false }

/-- Claim C1, witness: the amended theorem applied to the spec's example
request with a concrete entropy source and the identity shuffle. -/
theorem C1_witness :
    ∃ out, generate c1goodOpts (fun _ => 0) id = Except.ok out
      ∧ out.length = c1goodOpts.length
      ∧ (c1goodOpts.includeUppercase = true →
          out.any (fun c => UPPERCASE.contains c) = true)
      ∧ (c1goodOpts.includeLowercase = true →
          out.any (fun c => LOWERCASE.contains c) = true)
      ∧ (c1goodOpts.includeNumbers = true →
          out.any (fun c => NUMBERS.contains c) = true)
      ∧ (c1goodOpts.includeSymbols = true →
          out.any (fun c => SYMBOLS.contains c) = true) :=
  C1_generate_length_and_classes c1goodOpts (fun _ => 0) id
    (fun l => List.Perm.refl l) (Or.inl rfl) (by decide)

/-! ## Claim C8 -/

/-- Membership in `if cond then l else []` forces membership in `l`. -/
theorem mem_of_mem_ite_nil {c : Char} {cond : Prop} [Decidable cond]
    {l : List Char} (h : c ∈ (if cond then l else [])) : c ∈ l := by
  by_cases hc : cond
  · rwa [if_pos hc] at h
  · rw [if_neg hc] at h
    cases h

/-- With the lookalike filter on, a successful draw lands in the filtered
pool. -/
theorem getRandomChar_filter_of_some {pool : List Char} {r : Nat} {c : Char}
    (h : getRandomChar pool true r = some c) : c ∈ pool.filter notSimilar :=
  List.getElem?_mem h

theorem charset_of_excludeSimilar {o : GeneratorOptions}
    (hes : o.excludeSimilar = true) :
    charset o = (rawCharset o).filter notSimilar := by
  rw [charset, hes]
  rfl

/-- Claim C8: whatever `generate` returns with `excludeSimilar = true` — for
any entropy source and any permutation-shuffle — contains none of the
lookalike characters `i l 1 L o 0 O`. -/
theorem C8_generate_excludes_similar (o : GeneratorOptions)
    (rand : Nat → Nat) (shuffle : List Char → List Char) (out : List Char)
    (hsh : ∀ l : List Char, (shuffle l).Perm l)
    (hes : o.excludeSimilar = true)
    (hout : generate o rand shuffle = Except.ok out) :
    ∀ c, c ∈ out → c ∉ SIMILAR := by
  intro c hc
  by_cases hz : (charset o).length = 0
  · rw [generate, if_pos hz] at hout
    cases hout
  · rw [generate, if_neg hz] at hout
    have heq := Except.ok.inj hout
    have hbody : c ∈ guaranteedChars o rand
        ++ fillChars (charset o) rand 4
          (o.length - (guaranteedChars o rand).length) := by
      refine (hsh _).mem_iff.mp ?_
      rw [heq]
      exact hc
    have pool_case : ∀ (pool : List Char) (r : Nat),
        c ∈ (getRandomChar pool true r).toList → notSimilar c = true :=
      fun pool r hmem =>
        List.of_mem_filter
          (getRandomChar_filter_of_some (Option.mem_def.mp
            (Option.mem_toList.mp hmem)))
    have hns : notSimilar c = true := by
      rcases List.mem_append.mp hbody with hg | hf
      · -- guaranteed characters come from lookalike-filtered pools
        rw [guaranteedChars, hes] at hg
        rcases List.mem_append.mp hg with hg | h4
        · rcases List.mem_append.mp hg with hg | h3
          · rcases List.mem_append.mp hg with h1 | h2
            · exact pool_case UPPERCASE (rand 0) (mem_of_mem_ite_nil h1)
            · exact pool_case LOWERCASE (rand 1) (mem_of_mem_ite_nil h2)
          · exact pool_case NUMBERS (rand 2) (mem_of_mem_ite_nil h3)
        · exact pool_case SYMBOLS (rand 3) (mem_of_mem_ite_nil h4)
      · -- fill characters come from the filtered working alphabet
        have hcs := fillChars_mem (charset o) rand _ _ c hf
        rw [charset_of_excludeSimilar hes] at hcs
        exact List.of_mem_filter hcs
    intro hsim
    rw [notSimilar] at hns
    have hcontains : SIMILAR.contains c = true := List.elem_eq_true_of_mem hsim
    rw [hcontains] at hns
    cases hns

/-- A concrete `excludeSimilar` run: digits only, length 4, zero entropy. -/
def c8Opts : GeneratorOptions :=
  { length := 4, includeUppercase := false, includeLowercase := false
    includeNumbers := true, includeSymbols := false, excludeSimilar := true }

/-- Claim C8, witness: the theorem applied to a concrete run (which
generates `"2222"`), showing its first character is no lookalike. -/
theorem C8_witness : ('2' : Char) ∉ SIMILAR :=
  C8_generate_excludes_similar c8Opts (fun _ => 0) id ['2', '2', '2', '2']
    (fun l => List.Perm.refl l) rfl rfl '2' (by decide)

/-! ## Claim C9 -/

/-- Claim C9: when the qualitative score clamps to the maximum 5, the label
lookup table (entries 0–4 only) misses and the `|| 'Very Weak'` default is
returned. -/
theorem C9_top_score_label (s : List Char)
    (h : (analyzeStrength s).score = 5) :
    (analyzeStrength s).label = "Very Weak" := by
  have hq : qualScore s = 5 := h
  show ["Very Weak", "Weak", "Fair", "Good", "Strong"].getD
    (qualScore s).toNat "Very Weak" = "Very Weak"
  rw [hq]
  rfl

/-- Claim C9, witness: a 16-character four-class password reaches the clamped
maximum 5 and is labelled `"Very Weak"`. -/
theorem C9_witness :
    (analyzeStrength "Aa1!Aa1!Aa1!Aa1!".toList).score = 5
      ∧ (analyzeStrength "Aa1!Aa1!Aa1!Aa1!".toList).label = "Very Weak" :=
  ⟨by decide, C9_top_score_label ("Aa1!Aa1!Aa1!Aa1!".toList) (by decide)⟩

/-! ## Claim C4 -/

/-- Claim C4, code evaluation at the failing input: `"aaa"` repeats a
character three times consecutively, yet the source's repeated-character test
`/(.)\\1{2,}/` is false on it (its doubled backslash matches a literal
backslash, as the fourth conjunct shows), so neither scorer subtracts the
penalty: the qualitative score stays 1 (not 0) and the quantitative score
stays 20 (not 10). -/
theorem C4_code_eval :
    hasRepeatedPattern "aaa".toList = false
      ∧ (analyzeStrength "aaa".toList).score = 1
      ∧ (calculatePasswordStrength "aaa".toList).score = 20
      ∧ hasRepeatedPattern "a\\11".toList = true := by decide

/-! ## Claim C5 -/

/-- Claim C5, counterexample: `"ab"` and `"abc"` have identical class-presence
flags and `"ab"` is shorter, yet `"abc"` scores strictly lower (the
forbidden-substring penalty −20 fires on `"abc"`), refuting monotonicity in
length under fixed flags. -/
theorem C5_counterexample :
    (calculatePasswordStrength "ab".toList).hasUppercase
        = (calculatePasswordStrength "abc".toList).hasUppercase
      ∧ (calculatePasswordStrength "ab".toList).hasLowercase
        = (calculatePasswordStrength "abc".toList).hasLowercase
      ∧ (calculatePasswordStrength "ab".toList).hasNumbers
        = (calculatePasswordStrength "abc".toList).hasNumbers
      ∧ (calculatePasswordStrength "ab".toList).hasSymbols
        = (calculatePasswordStrength "abc".toList).hasSymbols
      ∧ ("ab".toList).length ≤ ("abc".toList).length
      ∧ (calculatePasswordStrength "abc".toList).score
        < (calculatePasswordStrength "ab".toList).score := by decide

theorem lengthScore_mono {m n : Nat} (h : m ≤ n) :
    lengthScore m ≤ lengthScore n := by
  unfold lengthScore
  split_ifs <;> omega

/-- Claim C5 (amended): the quantitative score is monotonic non-decreasing in
length when the class-presence flags AND the two penalty conditions
(repeated-character test, forbidden-substring test) are all held fixed; the
counterexample shows the penalty conditions cannot be dropped. -/
theorem C5_quant_score_mono (s t : List Char)
    (hlen : s.length ≤ t.length)
    (hu : hasUpperFlag s = hasUpperFlag t)
    (hl : hasLowerFlag s = hasLowerFlag t)
    (hd : hasDigitFlag s = hasDigitFlag t)
    (hy : hasSymbolFlag s = hasSymbolFlag t)
    (hr : hasRepeatedPattern s = hasRepeatedPattern t)
    (hc : hasCommonPattern s = hasCommonPattern t) :
    (calculatePasswordStrength s).score ≤ (calculatePasswordStrength t).score := by
  show max 0 (min 100 (quantRawScore s.length (hasUpperFlag s)
      (hasLowerFlag s) (hasDigitFlag s) (hasSymbolFlag s)
      (hasRepeatedPattern s) (hasCommonPattern s)))
    ≤ max 0 (min 100 (quantRawScore t.length (hasUpperFlag t)
      (hasLowerFlag t) (hasDigitFlag t) (hasSymbolFlag t)
      (hasRepeatedPattern t) (hasCommonPattern t)))
  rw [hu, hl, hd, hy, hr, hc]
  have hmono : quantRawScore s.length (hasUpperFlag t) (hasLowerFlag t)
      (hasDigitFlag t) (hasSymbolFlag t) (hasRepeatedPattern t)
      (hasCommonPattern t)
    ≤ quantRawScore t.length (hasUpperFlag t) (hasLowerFlag t)
      (hasDigitFlag t) (hasSymbolFlag t) (hasRepeatedPattern t)
      (hasCommonPattern t) := by
    unfold quantRawScore
    have := lengthScore_mono hlen
    omega
  exact max_le_max le_rfl (min_le_min le_rfl hmono)

/-- Claim C5, witness: the amended theorem applied to `"Aa1!"` and
`"Aa1!Aa1!"` (same flags, no penalties, lengths 4 ≤ 8). -/
theorem C5_witness :
    (calculatePasswordStrength "Aa1!".toList).score
      ≤ (calculatePasswordStrength "Aa1!Aa1!".toList).score :=
  C5_quant_score_mono ("Aa1!".toList) ("Aa1!Aa1!".toList) (by decide)
    (by decide) (by decide) (by decide) (by decide) (by decide) (by decide)

/-! ## Claim C2 -/

def c2rec1 : Password :=
  { id := "1", title := "A", password := "abc123"
    encryptedPassword := "abc123", category := "Personal", updatedAt := 0 }

def c2rec2 : Password :=
  { id := "2", title := "B", password := "abc123"
    encryptedPassword := "abc123", category := "Personal", updatedAt := 0 }

def c2rec3 : Password :=
  { id := "3", title := "C", password := "Xy9!kLp2Qz"
    encryptedPassword := "Xy9!kLp2Qz", category := "Personal", updatedAt := 0 }

/-- The claim's record sequence
`[{secret:"abc123"}, {secret:"abc123"}, {secret:"Xy9!kLp2Qz"}]`. -/
def c2records : List Password := [c2rec1, c2rec2, c2rec3]

/-- Claim C2, counterexample: on the claim's records `duplicateCount` is not
2 — the analyzer counts a record as duplicate only when its secret appeared
*earlier*, so the first `"abc123"` record is not counted. -/
theorem C2_counterexample :
    ¬ ((analyzePasswordHealth c2records 0).duplicate = 2) := by decide

/-- Claim C2 (amended): on the claim's records the analyzer reports
`duplicateCount = 1` (later occurrences only), while the duplicate-subset
accessor does return exactly the two `"abc123"` records in original order. -/
theorem C2_duplicate_count_and_subset :
    (analyzePasswordHealth c2records 0).duplicate = 1
      ∧ getDuplicatePasswords c2records = [c2rec1, c2rec2] := by decide

/-! ## Claim C3 -/

/-- Modelled from the spec's words, for comparison with the code:
`score = clamp(0,100, 100 − 40·weakRatio − 30·duplicateRatio − 20·staleRatio
+ 10·strongRatio)` with all ratios over `total`, and 0 when `total == 0`. -/
def specCompositeScore (total weak dup stale strong : Nat) : ℚ :=
  if total = 0 then 0
  else max 0 (min 100
    (100 - 40 * ((weak : ℚ) / total) - 30 * ((dup : ℚ) / total)
      - 20 * ((stale : ℚ) / total) + 10 * ((strong : ℚ) / total)))

theorem healthScore_eq_spec (t w d o s : Nat) :
    healthScore t w d o s = specCompositeScore t w d o s := by
  unfold healthScore specCompositeScore
  by_cases h : t = 0
  · simp [h]
  · have hpos : t > 0 := Nat.pos_of_ne_zero h
    rw [if_pos hpos, if_neg h]
    congr 2
    ring

/-- Claim C3: for every record sequence (and staleness cutoff) the analyzer's
composite score equals the spec's clamped ratio formula over its own counts,
and is 0 when the total is 0. -/
theorem C3_composite_score (ps : List Password) (cutoff : Int) :
    (analyzePasswordHealth ps cutoff).score
      = specCompositeScore (analyzePasswordHealth ps cutoff).total
        (analyzePasswordHealth ps cutoff).weak
        (analyzePasswordHealth ps cutoff).duplicate
        (analyzePasswordHealth ps cutoff).old
        (analyzePasswordHealth ps cutoff).strong :=
  healthScore_eq_spec _ _ _ _ _

/-! ## Claim C6 -/

/-- Generic partition: a filter and its complement split a list's length. -/
theorem length_filter_add_length_filter_not {α : Type} (p : α → Bool)
    (l : List α) :
    (l.filter p).length + (l.filter (fun a => !(p a))).length = l.length := by
  induction l with
  | nil => rfl
  | cons a l ih =>
      cases h : p a <;> simp [List.filter_cons, h, ih] <;> omega

/-- The accumulating row loop of `parseCSV` equals mapping each row to its
record and keeping those with a nonempty password. -/
theorem parseCSV_foldl_eq (f : Nat × List Char → ImportedPassword) :
    ∀ (l : List (Nat × List Char)) (acc : List ImportedPassword),
      l.foldl (fun acc il =>
        let r := f il
        if r.password != "" then acc ++ [r] else acc) acc
      = acc ++ (l.map f).filter (fun r => r.password != "") := by
  intro l
  induction l with
  | nil => intro acc; simp
  | cons hd tl ih =>
      intro acc
      rw [List.foldl_cons,
        show (let r := f hd
          if r.password != "" then acc ++ [r] else acc)
          = if (f hd).password != "" then acc ++ [f hd] else acc from rfl]
      cases hpw : (f hd).password != ""
      · rw [if_neg Bool.false_ne_true, ih, List.map_cons, List.filter_cons,
          if_neg (by simp [hpw])]
      · rw [if_pos rfl, ih, List.map_cons, List.filter_cons, if_pos hpw]
        simp [List.append_assoc]

/-- Claim C6: whenever `parseCSV` succeeds, the number of parsed candidates
plus the number of data rows whose resolved password is empty equals the
number of data rows — empty-password rows are silently dropped, never
reported as errors. -/
theorem C6_empty_password_rows_dropped (text : String)
    (res : List ImportedPassword) (hres : parseCSV text = Except.ok res) :
    res.length
      + (((csvRows text).map (csvRecord text)).filter
          (fun r => r.password == "")).length
      = (csvRows text).length := by
  unfold parseCSV at hres
  by_cases h : (csvLines text).length < 2
  · rw [if_pos h] at hres
    cases hres
  · rw [if_neg h] at hres
    have hres' := Except.ok.inj hres
    rw [← hres']
    rw [parseCSV_foldl_eq (csvRecord text) (csvRows text) []]
    simp only [List.nil_append]
    have hpart := length_filter_add_length_filter_not
      (fun r : ImportedPassword => r.password != "")
      ((csvRows text).map (csvRecord text))
    simp only [bne, Bool.not_not] at hpart
    rw [← List.length_map (csvRows text) (csvRecord text)]
    convert hpart using 3

/-- The claim's fixture: header `title,username,password,url,notes`, one good
row, one row with an empty password field. -/
def c6text : String :=
  "title,username,password,url,notes\nGmail,u,x,h,n\nBad,u,,h,n"

def c6rec : ImportedPassword :=
  { title := "Gmail", username := "u", email := "", password := "x"
    websiteUrl := "h", category := "Personal", notes := "n" }

/-- Claim C6, witness: the theorem applied to the fixture — one parsed
candidate, one dropped row, two data rows. -/
theorem C6_witness :
    ([c6rec] : List ImportedPassword).length
      + (((csvRows c6text).map (csvRecord c6text)).filter
          (fun r => r.password == "")).length
      = (csvRows c6text).length :=
  C6_empty_password_rows_dropped c6text [c6rec] (by rfl)

/-! ## Claims C7 and C10: the commit loop -/

theorem importLoop_total (store : Nat → Option String) :
    ∀ (ps : List ImportedPassword) (i : Nat) (r : ImportResult),
      (importLoop store ps i r).total = r.total := by
  intro ps
  induction ps with
  | nil => intro i r; rfl
  | cons p rest ih =>
      intro i r
      rw [importLoop]
      cases store i <;> exact ih _ _

theorem importLoop_failed (store : Nat → Option String) :
    ∀ (ps : List ImportedPassword) (i : Nat) (r : ImportResult),
      (importLoop store ps i r).failed = r.failed + countFail store i ps.length := by
  intro ps
  induction ps with
  | nil => intro i r; simp [importLoop, countFail]
  | cons p rest ih =>
      intro i r
      rw [importLoop, List.length_cons]
      rw [show countFail store i (rest.length + 1)
        = (if (store i).isSome then 1 else 0) + countFail store (i + 1) rest.length
        from rfl]
      cases hs : store i with
      | none => rw [ih]; simp [hs]
      | some e => rw [ih]; simp [hs]; omega

theorem importLoop_succ_add_failed (store : Nat → Option String) :
    ∀ (ps : List ImportedPassword) (i : Nat) (r : ImportResult),
      (importLoop store ps i r).successful + (importLoop store ps i r).failed
        = r.successful + r.failed + ps.length := by
  intro ps
  induction ps with
  | nil => intro i r; simp [importLoop]
  | cons p rest ih =>
      intro i r
      rw [importLoop, List.length_cons]
      cases store i with
      | none => rw [ih]; simp; omega
      | some e => rw [ih]; simp; omega

theorem importLoop_errors_length (store : Nat → Option String) :
    ∀ (ps : List ImportedPassword) (i : Nat) (r : ImportResult),
      (importLoop store ps i r).errors.length + r.failed
        = (importLoop store ps i r).failed + r.errors.length := by
  intro ps
  induction ps with
  | nil => intro i r; rw [importLoop, Nat.add_comm]
  | cons p rest ih =>
      intro i r
      rw [importLoop]
      cases store i with
      | none => rw [ih]  -- accumulator unchanged in the fields at stake
      | some e =>
          have h := ih (i + 1)
            { r with failed := r.failed + 1
                     errors := r.errors ++ [importError p.title e] }
          simp only [List.length_append, List.length_cons, List.length_nil]
            at h ⊢
          omega

/-- Claim C10: whenever the commit loop runs (nonempty candidate list), the
outcome satisfies `successful + failed = total` and carries exactly one error
message per failure, for every store behaviour. -/
theorem C10_outcome_invariant (ps : List ImportedPassword)
    (store : Nat → Option String) (r : ImportResult)
    (h : handleImport ps store = some r) :
    r.successful + r.failed = r.total ∧ r.errors.length = r.failed := by
  unfold handleImport at h
  by_cases hz : ps.length = 0
  · rw [if_pos hz] at h
    cases h
  · rw [if_neg hz] at h
    have hr := Option.some.inj h
    have h1 : r.successful + r.failed = 0 + 0 + ps.length := by
      rw [← hr]
      exact importLoop_succ_add_failed store ps 0 ⟨ps.length, 0, 0, []⟩
    have h2 : r.total = ps.length := by
      rw [← hr]
      exact importLoop_total store ps 0 ⟨ps.length, 0, 0, []⟩
    have h3 : r.errors.length + 0 = r.failed + 0 := by
      rw [← hr]
      exact importLoop_errors_length store ps 0 ⟨ps.length, 0, 0, []⟩
    exact ⟨by omega, by omega⟩

/-- Claim C10, witness: a singleton commit against an always-succeeding
store. -/
theorem C10_witness :
    ({ total := 1, successful := 1, failed := 0, errors := [] }
        : ImportResult).successful
      + ({ total := 1, successful := 1, failed := 0, errors := [] }
        : ImportResult).failed
      = ({ total := 1, successful := 1, failed := 0, errors := [] }
        : ImportResult).total
    ∧ ({ total := 1, successful := 1, failed := 0, errors := [] }
        : ImportResult).errors.length
      = ({ total := 1, successful := 1, failed := 0, errors := [] }
        : ImportResult).failed :=
  C10_outcome_invariant [emptyCandidate] (fun _ => none)
    { total := 1, successful := 1, failed := 0, errors := [] } (by rfl)

/-- Claim C7: a three-candidate commit whose store fails on exactly one
candidate does not abort: it returns `total = 3`, `succeeded = 2`,
`failed = 1`, with exactly one error entry. -/
theorem C7_partial_failure (ps : List ImportedPassword)
    (store : Nat → Option String)
    (h3 : ps.length = 3) (hfail : countFail store 0 3 = 1) :
    ∃ r, handleImport ps store = some r ∧ r.total = 3 ∧ r.successful = 2
      ∧ r.failed = 1 ∧ r.errors.length = 1 := by
  have hz : ¬ ps.length = 0 := by omega
  have hc : countFail store 0 ps.length = 1 := by
    rw [h3]
    exact hfail
  have ht : (importLoop store ps 0 ⟨ps.length, 0, 0, []⟩).total = ps.length :=
    importLoop_total store ps 0 _
  have hf : (importLoop store ps 0 ⟨ps.length, 0, 0, []⟩).failed
      = 0 + countFail store 0 ps.length :=
    importLoop_failed store ps 0 _
  have hsf : (importLoop store ps 0 ⟨ps.length, 0, 0, []⟩).successful
        + (importLoop store ps 0 ⟨ps.length, 0, 0, []⟩).failed
      = 0 + 0 + ps.length :=
    importLoop_succ_add_failed store ps 0 _
  have he : (importLoop store ps 0 ⟨ps.length, 0, 0, []⟩).errors.length + 0
      = (importLoop store ps 0 ⟨ps.length, 0, 0, []⟩).failed + 0 :=
    importLoop_errors_length store ps 0 _
  exact ⟨importLoop store ps 0 ⟨ps.length, 0, 0, []⟩,
    by rw [handleImport, if_neg hz], by omega, by omega, by omega, by omega⟩

def c7cand1 : ImportedPassword := { emptyCandidate with title := "One" }

def c7cand2 : ImportedPassword := { emptyCandidate with title := "Two" }

def c7cand3 : ImportedPassword := { emptyCandidate with title := "Three" }

/-- Claim C7, witness: three concrete candidates against a store that throws
on the second one. -/
theorem C7_witness :
    ∃ r, handleImport [c7cand1, c7cand2, c7cand3]
        (fun i => if i = 1 then some "boom" else none) = some r
      ∧ r.total = 3 ∧ r.successful = 2 ∧ r.failed = 1 ∧ r.errors.length = 1 :=
  C7_partial_failure [c7cand1, c7cand2, c7cand3]
    (fun i => if i = 1 then some "boom" else none) (by rfl) (by rfl)
